import Mathlib

/-!
# Kill Switch — Ad Performance Control Loop: a shallow embedding

This file embeds the decision core of `src/paid/kill_switch.py` (class
`KillSwitch`) and the thresholds of `src/config/constants.py`
(`KillSwitchThresholds`) in Lean 4 and proves the specified properties.

Modelling conventions:
* Python `int` counts are `Nat`; Python `float` currency/ratio values are `ℚ`
  (the program only ever compares and divides them, and the properties under
  study are exact-threshold comparisons).
* Platform I/O is modelled by explicit oracles: an `Env` records, per ad id,
  what each platform call would return (or that it raises).  Every function of
  the source that performs I/O becomes a Lean function of the oracle.
* Side effects (mutating platform calls and Slack notifications) are returned
  as an explicit `List Effect`; logging is not modelled.
-/

namespace KillSwitchModel

/-! ## Thresholds — `src/config/constants.py`, class `KillSwitchThresholds` (lines 16-40) -/

namespace KillSwitchThresholds

/-- `MIN_IMPRESSIONS_FOR_CHECK = 500` (constants.py line 20). -/
def MIN_IMPRESSIONS_FOR_CHECK : Nat := 500

/-- `CTR_CHECK_IMPRESSIONS = 1000` (constants.py line 23). -/
def CTR_CHECK_IMPRESSIONS : Nat := 1000

/-- `MIN_CTR_PERCENT = 0.5` (constants.py line 24). -/
def MIN_CTR_PERCENT : ℚ := 1/2

/-- `CPC_CHECK_SPEND = 5000` (constants.py line 27). -/
def CPC_CHECK_SPEND : ℚ := 5000

/-- `MAX_CPC = 500` (constants.py line 28). -/
def MAX_CPC : ℚ := 500

/-- `ROAS_CHECK_SPEND = 10000` (constants.py line 31). -/
def ROAS_CHECK_SPEND : ℚ := 10000

/-- `MIN_ROAS = 2.0` (constants.py line 32). -/
def MIN_ROAS : ℚ := 2

/-- `WINNER_MIN_CTR = 1.5` (constants.py line 35). -/
def WINNER_MIN_CTR : ℚ := 3/2

/-- `WINNER_MIN_ROAS = 4.0` (constants.py line 36). -/
def WINNER_MIN_ROAS : ℚ := 4

/-- `WINNER_BUDGET_INCREASE_RATE = 1.5` (constants.py line 37). -/
def WINNER_BUDGET_INCREASE_RATE : ℚ := 3/2

end KillSwitchThresholds

/-! ## Data model -/

/-- The raw insight row the platform returns for one ad: the fields of
`insights[0]` that `get_ad_insights` consumes (kill_switch.py lines 177-200).
`actions` models the `actions` list as (action_type, value) pairs with integer
values (`int(action.get("value", 0))`, line 192); `action_values` models the
`action_values` list with float values (`float(av.get("value", 0))`, line 200). -/
structure RawInsight where
  impressions : Nat
  clicks : Nat
  spend : ℚ
  ctr : ℚ
  cpc : ℚ
  actions : List (String × Nat)
  action_values : List (String × ℚ)
  deriving DecidableEq

/-- The performance snapshot dict returned by `get_ad_insights`
(kill_switch.py lines 205-215). -/
structure Insights where
  impressions : Nat
  clicks : Nat
  spend : ℚ
  ctr : ℚ
  cpc : ℚ
  conversions : Nat
  revenue : ℚ
  roas : ℚ
  actions : List (String × Nat)
  deriving DecidableEq

/-- `_empty_insights` (kill_switch.py lines 224-236): the all-zero snapshot. -/
def empty_insights : Insights :=
  { impressions := 0
    clicks := 0
    spend := 0
    ctr := 0
    cpc := 0
    conversions := 0
    revenue := 0
    roas := 0
    actions := [] }

/-- Conversion count extraction (kill_switch.py lines 187-192): sum of `value`
over actions whose `action_type` is purchase-like. -/
def conversions_of (actions : List (String × Nat)) : Nat :=
  actions.foldl
    (fun acc a =>
      if a.1 = "purchase" ∨ a.1 = "lead" ∨ a.1 = "complete_registration"
          ∨ a.1 = "omni_purchase"
      then acc + a.2 else acc) 0

/-- Revenue extraction (kill_switch.py lines 195-200): sum of `value` over
`action_values` entries whose `action_type` is `purchase`/`omni_purchase`. -/
def revenue_of (action_values : List (String × ℚ)) : ℚ :=
  action_values.foldl
    (fun acc a =>
      if a.1 = "purchase" ∨ a.1 = "omni_purchase" then acc + a.2 else acc) 0

/-- Shaping of a non-empty insights response into the snapshot dict
(kill_switch.py lines 177-215).  `roas = (revenue / spend) if spend > 0 else 0.0`
is line 203. -/
def shape_insight (r : RawInsight) : Insights :=
  { impressions := r.impressions
    clicks := r.clicks
    spend := r.spend
    ctr := r.ctr
    cpc := r.cpc
    conversions := conversions_of r.actions
    revenue := revenue_of r.action_values
    roas := if 0 < r.spend then revenue_of r.action_values / r.spend else 0
    actions := r.actions }

/-- Outcome of the platform insights read for one ad, as observed by
`get_ad_insights`:
* `ok r` — the call returned a non-empty list whose first row is `r`
  (`insight = insights[0]`, line 177);
* `noData` — the call returned an empty list (line 173);
* `readError` — the call raised (`FacebookRequestError` or any other
  exception, lines 217-222). -/
inductive FetchResult where
  | ok (r : RawInsight)
  | noData
  | readError
  deriving DecidableEq

/-- `get_ad_insights` (kill_switch.py lines 122-222) as a function of the
platform's response to its insights call: an empty response returns
`_empty_insights` (line 175), a raised exception is caught and also returns
`_empty_insights` (lines 217-222), and a non-empty response is shaped into the
snapshot dict. -/
def get_ad_insights (f : FetchResult) : Insights :=
  match f with
  | .ok r => shape_insight r
  | .noData => empty_insights
  | .readError => empty_insights

/-! ## Decision engine — `check_ad_performance` (kill_switch.py lines 242-301) -/

/-- First component of the tuple returned by `check_ad_performance`:
`"kill"`, `"scale"` or `"keep"`. -/
inductive AdAction where
  | kill
  | scale
  | keep
  deriving DecidableEq

/-- The kill-reason strings returned by `check_ad_performance` (the source
strings are Korean):
* `noClicks` — line 277, the Tier-1 reason (spec name `"no_clicks"`);
* `lowCtr` — line 282, the Tier-2 reason (spec name `"low_ctr"`);
* `cpcExceeded` — line 287, the Tier-3 reason (spec name `"cpc_exceeded"`);
* `roasBelowMinimum` — line 292, the Tier-4 reason
  (spec name `"roas_below_minimum"`). -/
inductive Reason where
  | noClicks
  | lowCtr
  | cpcExceeded
  | roasBelowMinimum
  deriving DecidableEq

open KillSwitchThresholds in
/-- The tier cascade of `check_ad_performance` applied to an already-fetched
snapshot (kill_switch.py lines 265-301): an ordered, short-circuiting sequence
of `if`/`return` checks. -/
def check_ad_performance_on (i : Insights) : AdAction × Option Reason :=
  -- Level 1 (lines 275-277): impressions >= 500 and clicks == 0
  if MIN_IMPRESSIONS_FOR_CHECK ≤ i.impressions ∧ i.clicks = 0 then
    (.kill, some .noClicks)
  -- Level 2 (lines 280-282): impressions >= 1000 and ctr < 0.5
  else if CTR_CHECK_IMPRESSIONS ≤ i.impressions ∧ i.ctr < MIN_CTR_PERCENT then
    (.kill, some .lowCtr)
  -- Level 3 (lines 285-287): spend >= 5000 and cpc > 500
  else if CPC_CHECK_SPEND ≤ i.spend ∧ MAX_CPC < i.cpc then
    (.kill, some .cpcExceeded)
  -- Level 4 (lines 290-292): spend >= 10000 and roas < 2.0
  else if ROAS_CHECK_SPEND ≤ i.spend ∧ i.roas < MIN_ROAS then
    (.kill, some .roasBelowMinimum)
  -- Winner (lines 295-297): ctr >= 1.5 and roas >= 4.0
  else if WINNER_MIN_CTR ≤ i.ctr ∧ WINNER_MIN_ROAS ≤ i.roas then
    (.scale, none)
  -- Otherwise (line 301): keep
  else
    (.keep, none)

/-! ## Platform oracle and effects -/

/-- Outcome of `ad_account.get_ads(..., effective_status=["ACTIVE"])` as
observed by `get_active_ads` (kill_switch.py lines 77-116):
* `ok ids` — the listing succeeded with the given ad ids (the other listed
  fields — name, adset_id, campaign_id, statuses — are only used for logging
  in the monitoring path);
* `listError` — the call raised (`FacebookRequestError` or any other
  exception, lines 106-116). -/
inductive ListResult where
  | ok (ids : List String)
  | listError
  deriving DecidableEq

/-- Which budget field of an AdSet is read/written (kill_switch.py
lines 382-387: `budget_type` is `"daily_budget"` or `"lifetime_budget"`). -/
inductive BudgetField where
  | daily
  | lifetime
  deriving DecidableEq

/-- The two budget fields of an AdSet as returned by `adset.api_get`
(kill_switch.py lines 375-379); a missing field reads as 0
(`adset_data.get("daily_budget", 0)`). -/
structure AdSetBudget where
  daily_budget : Nat
  lifetime_budget : Nat
  deriving DecidableEq

/-- Observable side effects: mutating platform calls and Slack notifications.
Logging is not modelled. -/
inductive Effect where
  /-- `ad.api_update(status=PAUSED)` attempted for this ad (line 322). -/
  | setStatusPaused (ad_id : String)
  /-- `adset.api_update({budget_type: str(new_budget)})` attempted (line 399). -/
  | setBudget (adset_id : String) (field : BudgetField) (amount : Nat)
  /-- `notifier.notify_ad_paused(ad_id, reason)` (line 329). -/
  | notifyPaused (ad_id : String) (reason : Option Reason)
  /-- `notifier.notify_ad_scaled(ad_id, old, new)` (line 408). -/
  | notifyScaled (ad_id : String) (old_budget new_budget : Nat)
  /-- `notifier.notify_error(..., context)` (lines 108-115, 335-344,
  414-424). -/
  | notifyError (context : String)
  deriving DecidableEq

/-- The platform oracle for one monitoring cycle: what each platform call
would return, per ad / adset id.  Raised exceptions are encoded as explicit
failure outcomes:
* `fetch` — response to the insights read of `get_ad_insights`;
* `pauseOk` — whether `ad.api_update(status=PAUSED)` succeeds (line 322);
* `adsetOf` — `ad.api_get([adset_id, name]).get("adset_id")` (lines 364-367);
  `none` covers both a missing `adset_id` (line 369) and a raised read
  exception (both return `False` with no write, lines 369-371 and 412-425);
* `budgetReadOk` — whether `adset.api_get` of the budget fields succeeds
  (lines 374-379; on `false` the exception handler returns `False` with no
  write);
* `budgetOf` — the budget fields returned when that read succeeds;
* `updateOk` — whether `adset.api_update` of the new budget succeeds
  (line 399). -/
structure Env where
  listResult : ListResult
  fetch : String → FetchResult
  pauseOk : String → Bool
  adsetOf : String → Option String
  budgetReadOk : String → Bool
  budgetOf : String → AdSetBudget
  updateOk : String → Bool

/-- `get_active_ads` (kill_switch.py lines 64-116): on success the listed ad
ids, on a raised exception an error notification and an empty list
(lines 106-116). -/
def get_active_ads (env : Env) : List String × List Effect :=
  match env.listResult with
  | .ok ids => (ids, [])
  | .listError => ([], [.notifyError "get_active_ads"])

/-- `check_ad_performance` (kill_switch.py lines 242-301): fetches the
snapshot for the ad (line 263) and runs the tier cascade on it. -/
def check_ad_performance (env : Env) (ad_id : String) : AdAction × Option Reason :=
  check_ad_performance_on (get_ad_insights (env.fetch ad_id))

/-! ## Action executor -/

/-- `pause_ad` (kill_switch.py lines 307-346): attempts the status update; on
success notifies "ad paused" and returns `True`, on a raised exception
notifies an error and returns `False`. -/
def pause_ad (env : Env) (ad_id : String) (reason : Option Reason) :
    Bool × List Effect :=
  if env.pauseOk ad_id then
    (true, [.setStatusPaused ad_id, .notifyPaused ad_id reason])
  else
    (false, [.setStatusPaused ad_id, .notifyError "pause_ad"])

open KillSwitchThresholds in
/-- `scale_up_winner` (kill_switch.py lines 352-425):
* resolves the ad's adset id (lines 364-371; `none` → `False`, no write);
* reads the adset budget (lines 374-379; raised read exception → `False`,
  no write);
* takes `daily_budget` if non-zero, else `lifetime_budget`, remembering which
  field was read (lines 382-387);
* if both are zero, returns `False` with no mutation attempted
  (lines 389-391);
* otherwise computes `new_budget = int(current_budget * 1.5)` (line 395; for
  the non-negative budgets here Python `int(...)` is the floor) and writes it
  back to the same field (lines 398-399), returning `True` and a "scaled"
  notification on success, or `False` and an error notification if the update
  raises (lines 412-425). -/
def scale_up_winner (env : Env) (ad_id : String) : Bool × List Effect :=
  match env.adsetOf ad_id with
  | none => (false, [])
  | some adset_id =>
    if env.budgetReadOk adset_id then
      let b := env.budgetOf adset_id
      let current_budget := if b.daily_budget ≠ 0 then b.daily_budget else b.lifetime_budget
      let budget_type : BudgetField := if b.daily_budget ≠ 0 then .daily else .lifetime
      if current_budget = 0 then
        (false, [])
      else
        let new_budget : Nat := Nat.floor ((current_budget : ℚ) * WINNER_BUDGET_INCREASE_RATE)
        if env.updateOk adset_id then
          (true, [.setBudget adset_id budget_type new_budget,
                  .notifyScaled ad_id current_budget new_budget])
        else
          (false, [.setBudget adset_id budget_type new_budget,
                   .notifyError "scale_up_winner"])
    else
      (false, [])

/-! ## Cycle orchestrator — `monitor_all_ads` (kill_switch.py lines 431-511) -/

/-- Which counter bucket one ad contributes to in the loop of
`monitor_all_ads`. -/
inductive Outcome where
  | kept
  | paused
  | scaled
  | errored
  deriving DecidableEq

/-- The `stats` dict of `monitor_all_ads` (kill_switch.py lines 451-457). -/
structure CycleStats where
  total : Nat
  kept : Nat
  paused : Nat
  scaled : Nat
  errors : Nat
  deriving DecidableEq

/-- The body of the per-ad loop of `monitor_all_ads` (kill_switch.py
lines 467-499): decide, then act, and report which bucket the ad falls in
together with the effects produced.  In this embedding the body is a total
function — `check_ad_performance` cannot raise (its fetch swallows its own
exceptions, lines 217-222) and `pause_ad` / `scale_up_winner` report failure
through their boolean result — so the loop's `except` branch (lines 497-499)
is unreachable. -/
def monitor_one (env : Env) (ad_id : String) : Outcome × List Effect :=
  let d := check_ad_performance env ad_id
  match d.1 with
  | .kill =>
    let p := pause_ad env ad_id d.2
    (if p.1 then .paused else .errored, p.2)
  | .scale =>
    let s := scale_up_winner env ad_id
    (if s.1 then .scaled else .errored, s.2)
  | .keep => (.kept, [])

/-- Counter update for one bucket (kill_switch.py lines 479, 482, 488, 491,
494, 498). -/
def bump (s : CycleStats) (o : Outcome) : CycleStats :=
  match o with
  | .kept => { s with kept := s.kept + 1 }
  | .paused => { s with paused := s.paused + 1 }
  | .scaled => { s with scaled := s.scaled + 1 }
  | .errored => { s with errors := s.errors + 1 }

/-- `monitor_all_ads` (kill_switch.py lines 431-511): list the active ads,
initialise `stats` with `total = len(active_ads)` and all counters 0, then
fold the per-ad loop body over the list.  (The early return for an empty list,
lines 459-461, returns the same initial stats as the fold over `[]`.) -/
def monitor_all_ads (env : Env) : CycleStats × List Effect :=
  let listed := get_active_ads env
  let init : CycleStats :=
    { total := listed.1.length, kept := 0, paused := 0, scaled := 0, errors := 0 }
  listed.1.foldl
    (fun acc ad_id =>
      let r := monitor_one env ad_id
      (bump acc.1 r.1, acc.2 ++ r.2))
    (init, listed.2)

/-! ## Diagnostic report — `get_performance_summary` (kill_switch.py
lines 574-599) -/

/-- Python's `round(x, ndigits)` on an exact value: round half to even.
(`round_half_even x` is the integer nearest to `x`, ties to the even
integer.) -/
def round_half_even (x : ℚ) : ℤ :=
  let n := ⌊x⌋
  if x - n < 1/2 then n
  else if 1/2 < x - n then n + 1
  else if n % 2 = 0 then n else n + 1

/-- `round(x, ndigits)` for a non-negative number of digits. -/
def py_round (x : ℚ) (ndigits : Nat) : ℚ :=
  (round_half_even (x * 10 ^ ndigits) : ℚ) / 10 ^ ndigits

/-- The dict returned by `get_performance_summary` (kill_switch.py
lines 587-599). -/
structure PerfSummary where
  ad_id : String
  impressions : Nat
  clicks : Nat
  spend : ℚ
  ctr : ℚ
  cpc : ℚ
  conversions : Nat
  revenue : ℚ
  roas : ℚ
  action : AdAction
  reason : Option Reason
  deriving DecidableEq

/-- `get_performance_summary` (kill_switch.py lines 574-599).  The method
performs two independent insights fetches for the same ad: one directly
(line 584, response `f1`) for the metric fields it reports, and one inside
`check_ad_performance` (line 585, response `f2`) for the reported decision.
`ctr` and `roas` are reported rounded to 2 decimal places and `cpc` to 0
(lines 592-596).  The effect list collects mutating platform calls and
notifications — both code paths are pure reads, so it is empty. -/
def get_performance_summary (f1 f2 : FetchResult) (ad_id : String) :
    PerfSummary × List Effect :=
  let insights := get_ad_insights f1
  let d := check_ad_performance_on (get_ad_insights f2)
  ({ ad_id := ad_id
     impressions := insights.impressions
     clicks := insights.clicks
     spend := insights.spend
     ctr := py_round insights.ctr 2
     cpc := py_round insights.cpc 0
     conversions := insights.conversions
     revenue := insights.revenue
     roas := py_round insights.roas 2
     action := d.1
     reason := d.2 }, [])

/-- The snapshot reconstructed from the metric fields a `PerfSummary` reports
(used to state what a decision "computed from the reported fields" is). -/
def insights_of_summary (s : PerfSummary) : Insights :=
  { impressions := s.impressions
    clicks := s.clicks
    spend := s.spend
    ctr := s.ctr
    cpc := s.cpc
    conversions := s.conversions
    revenue := s.revenue
    roas := s.roas
    actions := [] }

/-! ## Concrete oracles used as test inputs -/

/-- The counter bucket one ad contributes to in a cycle. -/
def outcome_of (env : Env) (ad_id : String) : Outcome :=
  (monitor_one env ad_id).1

/-- A raw insight row that is killed by Tier 1 (600 impressions, zero
clicks). -/
def raw_kill : RawInsight :=
  { impressions := 600, clicks := 0, spend := 0, ctr := 0, cpc := 0,
    actions := [], action_values := [] }

/-- A raw insight row that is a winner (ctr 2.0 ≥ 1.5, roas 40000/8000 = 5 ≥
4.0, no kill tier matching). -/
def raw_winner : RawInsight :=
  { impressions := 2000, clicks := 40, spend := 8000, ctr := 2, cpc := 200,
    actions := [], action_values := [("purchase", 40000)] }

/-- Oracle for a cycle over three ads: the insights read for ad "a" raises,
ad "b" reports the Tier-1 row `raw_kill` (its pause succeeds) and ad "c"
reports the winner row `raw_winner` (its adset "s" has daily budget 10000 and
the budget update succeeds). -/
def env_mixed_fetch_error : Env :=
  { listResult := .ok ["a", "b", "c"]
    fetch := fun ad_id =>
      if ad_id = "a" then .readError
      else if ad_id = "b" then .ok raw_kill
      else .ok raw_winner
    pauseOk := fun _ => true
    adsetOf := fun _ => some "s"
    budgetReadOk := fun _ => true
    budgetOf := fun _ => ⟨10000, 0⟩
    updateOk := fun _ => true }

/-- Oracle where the active-ads listing itself raises. -/
def env_list_error : Env :=
  { listResult := .listError
    fetch := fun _ => .noData
    pauseOk := fun _ => true
    adsetOf := fun _ => none
    budgetReadOk := fun _ => true
    budgetOf := fun _ => ⟨0, 0⟩
    updateOk := fun _ => true }

/-- Oracle for a cycle over two ads that both report no insight data. -/
def env_ok_two : Env :=
  { listResult := .ok ["a", "b"]
    fetch := fun _ => .noData
    pauseOk := fun _ => true
    adsetOf := fun _ => none
    budgetReadOk := fun _ => true
    budgetOf := fun _ => ⟨0, 0⟩
    updateOk := fun _ => true }

/-- Oracle for an ad "w" whose adset "s" has daily budget 10000 (and no
lifetime budget). -/
def env_winner_daily : Env :=
  { listResult := .ok ["w"]
    fetch := fun _ => .noData
    pauseOk := fun _ => true
    adsetOf := fun _ => some "s"
    budgetReadOk := fun _ => true
    budgetOf := fun _ => ⟨10000, 0⟩
    updateOk := fun _ => true }

/-- Oracle whose adset has an odd daily budget and also a non-zero lifetime
budget. -/
def env_odd_daily : Env :=
  { listResult := .ok ["w"]
    fetch := fun _ => .noData
    pauseOk := fun _ => true
    adsetOf := fun _ => some "s"
    budgetReadOk := fun _ => true
    budgetOf := fun _ => ⟨10001, 77777⟩
    updateOk := fun _ => true }

/-- A raw insight row whose platform-reported ctr (0.496%) sits just below the
Tier-2 threshold 0.5 but rounds to 0.50 at the report's 2-decimal display
precision. -/
def raw_boundary_ctr : RawInsight :=
  { impressions := 1000, clicks := 5, spend := 100, ctr := 62/125, cpc := 20,
    actions := [], action_values := [] }

end KillSwitchModel

/-! ## Helper lemmas -/

namespace KillSwitchModel
open KillSwitchThresholds

/-- The all-zero snapshot falls through every tier and the winner check. -/
lemma check_empty_keep : check_ad_performance_on empty_insights = (.keep, none) := by
  norm_num [check_ad_performance_on, empty_insights, MIN_IMPRESSIONS_FOR_CHECK,
    CTR_CHECK_IMPRESSIONS, MIN_CTR_PERCENT, CPC_CHECK_SPEND, MAX_CPC,
    ROAS_CHECK_SPEND, MIN_ROAS, WINNER_MIN_CTR, WINNER_MIN_ROAS]

/-- Only Tier 1 produces the `noClicks` reason, so that reason implies the
Tier-1 condition. -/
lemma kill_noClicks_inv (i : Insights)
    (h : check_ad_performance_on i = (.kill, some .noClicks)) :
    MIN_IMPRESSIONS_FOR_CHECK ≤ i.impressions ∧ i.clicks = 0 := by
  unfold check_ad_performance_on at h
  split_ifs at h with h1 h2 h3 h4 h5 <;> simp_all

/-- Only Tier 2 produces the `lowCtr` reason. -/
lemma kill_lowCtr_inv (i : Insights)
    (h : check_ad_performance_on i = (.kill, some .lowCtr)) :
    CTR_CHECK_IMPRESSIONS ≤ i.impressions ∧ i.ctr < MIN_CTR_PERCENT := by
  unfold check_ad_performance_on at h
  split_ifs at h with h1 h2 h3 h4 h5 <;> simp_all

/-- Only Tier 3 produces the `cpcExceeded` reason. -/
lemma kill_cpcExceeded_inv (i : Insights)
    (h : check_ad_performance_on i = (.kill, some .cpcExceeded)) :
    CPC_CHECK_SPEND ≤ i.spend ∧ MAX_CPC < i.cpc := by
  unfold check_ad_performance_on at h
  split_ifs at h with h1 h2 h3 h4 h5 <;> simp_all

/-- Only Tier 4 produces the `roasBelowMinimum` reason. -/
lemma kill_roasBelow_inv (i : Insights)
    (h : check_ad_performance_on i = (.kill, some .roasBelowMinimum)) :
    ROAS_CHECK_SPEND ≤ i.spend ∧ i.roas < MIN_ROAS := by
  unfold check_ad_performance_on at h
  split_ifs at h with h1 h2 h3 h4 h5 <;> simp_all

/-- The counters accumulated by the `monitor_all_ads` fold are the initial
counters plus, per bucket, the number of ads whose outcome is that bucket;
`total` is untouched by the fold. -/
lemma monitor_foldl_stats (env : Env) :
    ∀ (ads : List String) (s : CycleStats) (effs : List Effect),
      (ads.foldl
        (fun acc ad_id =>
          let r := monitor_one env ad_id
          (bump acc.1 r.1, acc.2 ++ r.2)) (s, effs)).1
        = { total := s.total
            kept := s.kept + (ads.countP fun a => outcome_of env a == .kept)
            paused := s.paused + (ads.countP fun a => outcome_of env a == .paused)
            scaled := s.scaled + (ads.countP fun a => outcome_of env a == .scaled)
            errors := s.errors + (ads.countP fun a => outcome_of env a == .errored) } := by
  intro ads
  induction ads with
  | nil => intro s effs; simp [List.countP_nil]
  | cons a l ih =>
    intro s effs
    simp only [List.foldl_cons, ih, List.countP_cons]
    have ho : (monitor_one env a).1 = outcome_of env a := rfl
    cases h : outcome_of env a <;>
      simp [bump, ho, h, CycleStats.mk.injEq] <;> omega

/-- The fold of `monitor_all_ads` only appends to the effect list it starts
from. -/
lemma monitor_foldl_effects (env : Env) :
    ∀ (ads : List String) (s : CycleStats) (effs : List Effect),
      ∃ rest,
        (ads.foldl
          (fun acc ad_id =>
            let r := monitor_one env ad_id
            (bump acc.1 r.1, acc.2 ++ r.2)) (s, effs)).2 = effs ++ rest := by
  intro ads
  induction ads with
  | nil => intro s effs; exact ⟨[], by simp⟩
  | cons a l ih =>
    intro s effs
    obtain ⟨rest, hrest⟩ := ih (bump s (monitor_one env a).1) (effs ++ (monitor_one env a).2)
    exact ⟨(monitor_one env a).2 ++ rest, by simp [hrest]⟩

/-- Each ad has exactly one outcome, so the four per-bucket counts sum to the
number of ads. -/
lemma countP_outcome_partition (env : Env) (ads : List String) :
    (ads.countP fun a => outcome_of env a == .kept)
      + (ads.countP fun a => outcome_of env a == .paused)
      + (ads.countP fun a => outcome_of env a == .scaled)
      + (ads.countP fun a => outcome_of env a == .errored)
      = ads.length := by
  induction ads with
  | nil => simp [List.countP_nil]
  | cons a l ih =>
    simp only [List.countP_cons, List.length_cons]
    cases h : outcome_of env a <;> simp [h] <;> omega

/-- Closed form of the cycle summary: `total` is the number of listed ads and
each counter is the count of ads landing in that bucket. -/
lemma monitor_stats_eq (env : Env) :
    (monitor_all_ads env).1
      = { total := (get_active_ads env).1.length
          kept := (get_active_ads env).1.countP fun a => outcome_of env a == .kept
          paused := (get_active_ads env).1.countP fun a => outcome_of env a == .paused
          scaled := (get_active_ads env).1.countP fun a => outcome_of env a == .scaled
          errors := (get_active_ads env).1.countP fun a => outcome_of env a == .errored } := by
  unfold monitor_all_ads
  rw [monitor_foldl_stats]
  simp

/-- A raised insights read degrades to the all-zero snapshot, so the decision
is `keep`. -/
lemma check_keep_of_fetch (env : Env) (ad_id : String)
    (h : env.fetch ad_id = .readError) :
    check_ad_performance env ad_id = (.keep, none) := by
  unfold check_ad_performance
  rw [h]
  exact check_empty_keep

/-- An ad whose insights read raises is counted under `kept`. -/
lemma outcome_of_readError (env : Env) (ad_id : String)
    (h : env.fetch ad_id = .readError) :
    outcome_of env ad_id = .kept := by
  simp [outcome_of, monitor_one, check_keep_of_fetch env ad_id h]

/-- `raw_kill` is killed by Tier 1. -/
lemma check_raw_kill :
    check_ad_performance_on (shape_insight raw_kill) = (.kill, some .noClicks) := by
  norm_num [check_ad_performance_on, shape_insight, raw_kill, revenue_of,
    conversions_of, MIN_IMPRESSIONS_FOR_CHECK, CTR_CHECK_IMPRESSIONS,
    MIN_CTR_PERCENT, CPC_CHECK_SPEND, MAX_CPC, ROAS_CHECK_SPEND, MIN_ROAS,
    WINNER_MIN_CTR, WINNER_MIN_ROAS]

/-- `raw_winner` decides to `scale`. -/
lemma check_raw_winner :
    check_ad_performance_on (shape_insight raw_winner) = (.scale, none) := by
  norm_num [check_ad_performance_on, shape_insight, raw_winner, revenue_of,
    conversions_of, MIN_IMPRESSIONS_FOR_CHECK, CTR_CHECK_IMPRESSIONS,
    MIN_CTR_PERCENT, CPC_CHECK_SPEND, MAX_CPC, ROAS_CHECK_SPEND, MIN_ROAS,
    WINNER_MIN_CTR, WINNER_MIN_ROAS]

/-- `int(n * 1.5)` on a non-negative integer is `3 * n / 2` in integer
division. -/
lemma floor_budget_rate (n : ℕ) :
    Nat.floor ((n : ℚ) * WINNER_BUDGET_INCREASE_RATE) = 3 * n / 2 := by
  have h : (n : ℚ) * WINNER_BUDGET_INCREASE_RATE = ((3 * n : ℕ) : ℚ) / ((2 : ℕ) : ℚ) := by
    unfold WINNER_BUDGET_INCREASE_RATE
    push_cast
    ring
  rw [h, Nat.floor_div_eq_div]

/-- When the daily budget is non-zero, `scale_up_winner` reads it and writes
1.5× of it back to the daily field, exactly once. -/
lemma scale_daily (env : Env) (ad_id adset_id : String)
    (hadset : env.adsetOf ad_id = some adset_id)
    (hread : env.budgetReadOk adset_id = true)
    (hupd : env.updateOk adset_id = true)
    (hd : (env.budgetOf adset_id).daily_budget ≠ 0) :
    scale_up_winner env ad_id =
      (true,
       [Effect.setBudget adset_id BudgetField.daily
          (3 * (env.budgetOf adset_id).daily_budget / 2),
        Effect.notifyScaled ad_id (env.budgetOf adset_id).daily_budget
          (3 * (env.budgetOf adset_id).daily_budget / 2)]) := by
  unfold scale_up_winner
  rw [hadset]
  simp [hread, hupd, hd, floor_budget_rate]

/-- When the daily budget is zero but the lifetime budget is not,
`scale_up_winner` reads and writes the lifetime field. -/
lemma scale_lifetime (env : Env) (ad_id adset_id : String)
    (hadset : env.adsetOf ad_id = some adset_id)
    (hread : env.budgetReadOk adset_id = true)
    (hupd : env.updateOk adset_id = true)
    (hd : (env.budgetOf adset_id).daily_budget = 0)
    (hl : (env.budgetOf adset_id).lifetime_budget ≠ 0) :
    scale_up_winner env ad_id =
      (true,
       [Effect.setBudget adset_id BudgetField.lifetime
          (3 * (env.budgetOf adset_id).lifetime_budget / 2),
        Effect.notifyScaled ad_id (env.budgetOf adset_id).lifetime_budget
          (3 * (env.budgetOf adset_id).lifetime_budget / 2)]) := by
  unfold scale_up_winner
  rw [hadset]
  simp [hread, hupd, hd, hl, floor_budget_rate]

/-- When neither budget field is set, `scale_up_winner` fails with no mutation
attempted. -/
lemma scale_no_budget (env : Env) (ad_id adset_id : String)
    (hadset : env.adsetOf ad_id = some adset_id)
    (hd : (env.budgetOf adset_id).daily_budget = 0)
    (hl : (env.budgetOf adset_id).lifetime_budget = 0) :
    scale_up_winner env ad_id = (false, []) := by
  unfold scale_up_winner
  rw [hadset]
  by_cases hread : env.budgetReadOk adset_id <;> simp [hread, hd, hl]

/-- A winner whose scale-up fails lands in the `errored` bucket. -/
lemma outcome_scale_fail (env : Env) (ad_id : String)
    (hc : (check_ad_performance env ad_id).1 = .scale)
    (hf : (scale_up_winner env ad_id).1 = false) :
    outcome_of env ad_id = .errored := by
  simp [outcome_of, monitor_one, hc, hf]

/-- `raw_boundary_ctr` is killed by Tier 2 (ctr 0.496 < 0.5 at 1000
impressions). -/
lemma check_boundary_ctr :
    check_ad_performance_on (shape_insight raw_boundary_ctr)
      = (.kill, some .lowCtr) := by
  norm_num [check_ad_performance_on, shape_insight, raw_boundary_ctr,
    revenue_of, conversions_of, MIN_IMPRESSIONS_FOR_CHECK,
    CTR_CHECK_IMPRESSIONS, MIN_CTR_PERCENT, CPC_CHECK_SPEND, MAX_CPC,
    ROAS_CHECK_SPEND, MIN_ROAS, WINNER_MIN_CTR, WINNER_MIN_ROAS]

/-- `round(0.496, 2) = 0.5` (49.6 rounds up to 50). -/
lemma py_round_boundary_ctr : py_round (62/125 : ℚ) 2 = 1/2 := by
  norm_num [py_round, round_half_even]

/-- `round(20, 0) = 20`. -/
lemma py_round_cpc : py_round (20 : ℚ) 0 = 20 := by
  norm_num [py_round, round_half_even]

/-- `round(0, 2) = 0`. -/
lemma py_round_zero : py_round (0 : ℚ) 2 = 0 := by
  norm_num [py_round, round_half_even]

/-- The diagnostic report for `raw_boundary_ctr` (both fetches equal): the
reported ctr is rounded up to 0.5 while the reported decision is the Tier-2
kill. -/
lemma summary_boundary_ctr :
    (get_performance_summary (.ok raw_boundary_ctr) (.ok raw_boundary_ctr) "ad1").1
      = { ad_id := "ad1", impressions := 1000, clicks := 5, spend := 100,
          ctr := 1/2, cpc := 20, conversions := 0, revenue := 0, roas := 0,
          action := .kill, reason := some .lowCtr } := by
  simp only [get_performance_summary, get_ad_insights, check_boundary_ctr]
  simp [shape_insight, raw_boundary_ctr, revenue_of, conversions_of,
    py_round_boundary_ctr, py_round_cpc]
  exact py_round_zero

end KillSwitchModel

/-! ## The claims -/

namespace KillSwitchModel
open KillSwitchThresholds

/-- C1: the tiers are an ordered, short-circuiting sequence — every snapshot
with at least 500 impressions and zero clicks is decided
`KILL("no_clicks")`, whatever its ctr and roas (even winner-grade values),
and in particular is never decided `SCALE`. -/
theorem C1_tier1_short_circuits_winner (i : Insights)
    (h1 : 500 ≤ i.impressions) (h2 : i.clicks = 0) :
    check_ad_performance_on i = (.kill, some .noClicks) ∧
    (check_ad_performance_on i).1 ≠ AdAction.scale := by
  have h : check_ad_performance_on i = (.kill, some .noClicks) := by
    unfold check_ad_performance_on
    rw [if_pos ⟨h1, h2⟩]
  exact ⟨h, by rw [h]; simp⟩

/-- Witness for C1 at a snapshot that also satisfies the Winner condition
(ctr 2.0 ≥ 1.5, roas 5.0 ≥ 4.0). -/
theorem C1_witness :
    check_ad_performance_on
      { impressions := 600, clicks := 0, spend := 0, ctr := 2, cpc := 0,
        conversions := 0, revenue := 0, roas := 5, actions := [] }
      = (.kill, some .noClicks) ∧
    (check_ad_performance_on
      { impressions := 600, clicks := 0, spend := 0, ctr := 2, cpc := 0,
        conversions := 0, revenue := 0, roas := 5, actions := [] }).1
      ≠ AdAction.scale :=
  C1_tier1_short_circuits_winner _ (by norm_num) rfl

/-- C2: boundary behaviour of the tier thresholds — impressions 500 with zero
clicks is a Tier-1 kill while impressions 499 is not; ctr exactly 0.5 at
1000+ impressions is not a Tier-2 kill; cpc exactly 500 at spend 5000+ is not
a Tier-3 kill; roas exactly 2.0 at spend 10000+ is not a Tier-4 kill: the
sample-size gates are inclusive and the quality checks strict. -/
theorem C2_boundary_thresholds (i : Insights) :
    (i.impressions = 500 → i.clicks = 0 →
      check_ad_performance_on i = (.kill, some .noClicks)) ∧
    (i.impressions = 499 → i.clicks = 0 →
      check_ad_performance_on i ≠ (.kill, some .noClicks)) ∧
    (1000 ≤ i.impressions → i.ctr = 1/2 →
      check_ad_performance_on i ≠ (.kill, some .lowCtr)) ∧
    (5000 ≤ i.spend → i.cpc = 500 →
      check_ad_performance_on i ≠ (.kill, some .cpcExceeded)) ∧
    (10000 ≤ i.spend → i.roas = 2 →
      check_ad_performance_on i ≠ (.kill, some .roasBelowMinimum)) := by
  refine ⟨?_, ?_, ?_, ?_, ?_⟩
  · intro h1 h2
    unfold check_ad_performance_on
    rw [if_pos ⟨by rw [h1]; norm_num [MIN_IMPRESSIONS_FOR_CHECK], h2⟩]
  · intro h1 h2 hc
    have := (kill_noClicks_inv i hc).1
    rw [h1] at this
    norm_num [MIN_IMPRESSIONS_FOR_CHECK] at this
  · intro h1 h2 hc
    have := (kill_lowCtr_inv i hc).2
    rw [h2] at this
    norm_num [MIN_CTR_PERCENT] at this
  · intro h1 h2 hc
    have := (kill_cpcExceeded_inv i hc).2
    rw [h2] at this
    norm_num [MAX_CPC] at this
  · intro h1 h2 hc
    have := (kill_roasBelow_inv i hc).2
    rw [h2] at this
    norm_num [MIN_ROAS] at this

/-- Witness for C2 at the five boundary snapshots. -/
theorem C2_witness :
    check_ad_performance_on
      { impressions := 500, clicks := 0, spend := 0, ctr := 0, cpc := 0,
        conversions := 0, revenue := 0, roas := 0, actions := [] }
      = (.kill, some .noClicks) ∧
    check_ad_performance_on
      { impressions := 499, clicks := 0, spend := 0, ctr := 0, cpc := 0,
        conversions := 0, revenue := 0, roas := 0, actions := [] }
      ≠ (.kill, some .noClicks) ∧
    check_ad_performance_on
      { impressions := 1000, clicks := 7, spend := 0, ctr := 1/2, cpc := 0,
        conversions := 0, revenue := 0, roas := 0, actions := [] }
      ≠ (.kill, some .lowCtr) ∧
    check_ad_performance_on
      { impressions := 0, clicks := 0, spend := 5000, ctr := 0, cpc := 500,
        conversions := 0, revenue := 0, roas := 0, actions := [] }
      ≠ (.kill, some .cpcExceeded) ∧
    check_ad_performance_on
      { impressions := 0, clicks := 0, spend := 10000, ctr := 0, cpc := 0,
        conversions := 0, revenue := 0, roas := 2, actions := [] }
      ≠ (.kill, some .roasBelowMinimum) :=
  ⟨(C2_boundary_thresholds _).1 rfl rfl,
   (C2_boundary_thresholds _).2.1 rfl rfl,
   (C2_boundary_thresholds _).2.2.1 (by norm_num) rfl,
   (C2_boundary_thresholds _).2.2.2.1 (by norm_num) rfl,
   (C2_boundary_thresholds _).2.2.2.2 (by norm_num) rfl⟩

/-- Counterexample to C3 as stated: a concrete N = 3 cycle where the insights
read for unit "a" raises with a platform read error while units "b" and "c"
are a Tier-1 kill and a winner.  The summary is total 3, kept 1, paused 1,
scaled 1, errors 0: every part of the claim holds at this input — total = N
and the remaining N-1 units' decisions are correctly reflected in
paused/scaled — except the claimed "counted under errors (errors ≥ 1)",
which fails because `get_ad_insights` swallows the exception (kill_switch.py
lines 217-222) and the failing unit is evaluated to keep and counted under
kept. -/
theorem C3_counterexample :
    (monitor_all_ads env_mixed_fetch_error).1
      = { total := 3, kept := 1, paused := 1, scaled := 1, errors := 0 } ∧
    ¬ 1 ≤ (monitor_all_ads env_mixed_fetch_error).1.errors := by
  have ha : outcome_of env_mixed_fetch_error "a" = .kept :=
    outcome_of_readError _ _ (by simp [env_mixed_fetch_error])
  have hb : outcome_of env_mixed_fetch_error "b" = .paused := by
    have hc : check_ad_performance env_mixed_fetch_error "b"
        = (.kill, some .noClicks) := by
      unfold check_ad_performance
      have hf : env_mixed_fetch_error.fetch "b" = .ok raw_kill := by
        simp [env_mixed_fetch_error]
      rw [hf]
      exact check_raw_kill
    have hp : pause_ad env_mixed_fetch_error "b" (some .noClicks)
        = (true, [.setStatusPaused "b", .notifyPaused "b" (some .noClicks)]) := rfl
    simp [outcome_of, monitor_one, hc, hp]
  have hcout : outcome_of env_mixed_fetch_error "c" = .scaled := by
    have hc : check_ad_performance env_mixed_fetch_error "c" = (.scale, none) := by
      unfold check_ad_performance
      have hf : env_mixed_fetch_error.fetch "c" = .ok raw_winner := by
        simp [env_mixed_fetch_error]
      rw [hf]
      exact check_raw_winner
    have hsc : (scale_up_winner env_mixed_fetch_error "c").1 = true := by
      rw [scale_daily env_mixed_fetch_error "c" "s" rfl rfl rfl
        (by simp [env_mixed_fetch_error])]
    simp [outcome_of, monitor_one, hc, hsc]
  have hs := monitor_stats_eq env_mixed_fetch_error
  have hads : (get_active_ads env_mixed_fetch_error).1 = ["a", "b", "c"] := rfl
  rw [hads] at hs
  rw [hs]
  refine ⟨?_, ?_⟩
  · simp [List.countP_cons, List.countP_nil, ha, hb, hcout]
  · simp [List.countP_cons, List.countP_nil, ha, hb, hcout]

/-- C3 as amended: when the metrics fetch for unit k of N raises, the cycle
still returns a summary with total = N, but the failing unit is evaluated
against the all-zero snapshot and counted under `kept` (not `errors`), while
every unit's decision — including the remaining N-1 — is correctly reflected
in the per-bucket counters. -/
theorem C3_amended_fetch_error_counted_kept (env : Env) (ads : List String)
    (k : String)
    (hlist : env.listResult = .ok ads) (hk : k ∈ ads)
    (hfetch : env.fetch k = .readError) :
    (monitor_all_ads env).1.total = ads.length ∧
    outcome_of env k = .kept ∧
    (monitor_all_ads env).1.kept
      = (ads.countP fun a => outcome_of env a == .kept) ∧
    (monitor_all_ads env).1.paused
      = (ads.countP fun a => outcome_of env a == .paused) ∧
    (monitor_all_ads env).1.scaled
      = (ads.countP fun a => outcome_of env a == .scaled) ∧
    (monitor_all_ads env).1.errors
      = (ads.countP fun a => outcome_of env a == .errored) ∧
    1 ≤ (monitor_all_ads env).1.kept := by
  have hads : (get_active_ads env).1 = ads := by simp [get_active_ads, hlist]
  have hkept := outcome_of_readError env k hfetch
  have hs := monitor_stats_eq env
  rw [hads] at hs
  rw [hs]
  refine ⟨rfl, hkept, rfl, rfl, rfl, rfl, ?_⟩
  have : 0 < ads.countP fun a => outcome_of env a == .kept := by
    rw [List.countP_pos_iff]
    exact ⟨k, hk, by simp [hkept]⟩
  exact this

/-- Witness for the amended C3 at the concrete three-ad oracle. -/
theorem C3_witness :
    (monitor_all_ads env_mixed_fetch_error).1.total = 3 ∧
    outcome_of env_mixed_fetch_error "a" = Outcome.kept ∧
    1 ≤ (monitor_all_ads env_mixed_fetch_error).1.kept := by
  have h := C3_amended_fetch_error_counted_kept env_mixed_fetch_error
    ["a", "b", "c"] "a" rfl (by simp) (by simp [env_mixed_fetch_error])
  exact ⟨h.1, h.2.1, h.2.2.2.2.2.2⟩

/-- C4: a failed active-ads listing is the only failure that fails the whole
cycle — the summary is then all-zero (total = 0, so no success is claimed
beyond an empty cycle) and the error is surfaced to the notification layer;
whereas whenever the listing succeeds the cycle runs to completion over all
N units with every per-unit failure absorbed into the counters
(kept + paused + scaled + errors = total = N). -/
theorem C4_list_failure_only_hard_failure (env : Env) :
    (env.listResult = .listError →
      (monitor_all_ads env).1
        = { total := 0, kept := 0, paused := 0, scaled := 0, errors := 0 } ∧
      Effect.notifyError "get_active_ads" ∈ (monitor_all_ads env).2) ∧
    (∀ ads, env.listResult = .ok ads →
      (monitor_all_ads env).1.total = ads.length ∧
      (monitor_all_ads env).1.kept + (monitor_all_ads env).1.paused
        + (monitor_all_ads env).1.scaled + (monitor_all_ads env).1.errors
        = (monitor_all_ads env).1.total) := by
  constructor
  · intro h
    constructor
    · have hs := monitor_stats_eq env
      have hads : (get_active_ads env).1 = [] := by simp [get_active_ads, h]
      rw [hads] at hs
      rw [hs]
      simp [List.countP_nil]
    · unfold monitor_all_ads
      obtain ⟨rest, hrest⟩ := monitor_foldl_effects env (get_active_ads env).1
        { total := (get_active_ads env).1.length, kept := 0, paused := 0,
          scaled := 0, errors := 0 }
        (get_active_ads env).2
      simp only [hrest]
      have : (get_active_ads env).2 = [Effect.notifyError "get_active_ads"] := by
        simp [get_active_ads, h]
      rw [this]
      simp
  · intro ads h
    have hads : (get_active_ads env).1 = ads := by simp [get_active_ads, h]
    have hs := monitor_stats_eq env
    rw [hads] at hs
    rw [hs]
    exact ⟨rfl, countP_outcome_partition env ads⟩

/-- Witness for C4: the listing-failure branch at `env_list_error` and the
ordinary branch at a two-ad oracle. -/
theorem C4_witness :
    ((monitor_all_ads env_list_error).1
        = { total := 0, kept := 0, paused := 0, scaled := 0, errors := 0 } ∧
      Effect.notifyError "get_active_ads" ∈ (monitor_all_ads env_list_error).2) ∧
    ((monitor_all_ads env_ok_two).1.total = 2 ∧
      (monitor_all_ads env_ok_two).1.kept + (monitor_all_ads env_ok_two).1.paused
        + (monitor_all_ads env_ok_two).1.scaled + (monitor_all_ads env_ok_two).1.errors
        = (monitor_all_ads env_ok_two).1.total) :=
  ⟨(C4_list_failure_only_hard_failure env_list_error).1 rfl,
   (C4_list_failure_only_hard_failure env_ok_two).2 ["a", "b"] rfl⟩

/-- C5: when the platform returns no insight data, `get_ad_insights` returns
the all-zero snapshot instead of failing, and the decision on that snapshot
is `keep`. -/
theorem C5_no_data_zero_snapshot_keep :
    get_ad_insights FetchResult.noData = empty_insights ∧
    get_ad_insights FetchResult.noData =
      { impressions := 0, clicks := 0, spend := 0, ctr := 0, cpc := 0,
        conversions := 0, revenue := 0, roas := 0, actions := [] } ∧
    check_ad_performance_on (get_ad_insights FetchResult.noData) = (.keep, none) :=
  ⟨rfl, rfl, check_empty_keep⟩

/-- C6: `scale_up_winner` reads whichever budget field is non-zero (daily
first), multiplies it by the fixed 1.5 rate and writes it back to the same
field with exactly one budget write; with neither field set it fails with no
mutation attempted, and that failure puts a winner unit in the `errored`
bucket of the cycle summary; a daily budget of 10000 yields exactly one
write of 15000 to the daily field. -/
theorem C6_scale_budget_behavior (env : Env) (ad_id adset_id : String)
    (hadset : env.adsetOf ad_id = some adset_id)
    (hread : env.budgetReadOk adset_id = true)
    (hupd : env.updateOk adset_id = true) :
    ((env.budgetOf adset_id).daily_budget ≠ 0 →
      scale_up_winner env ad_id =
        (true,
         [Effect.setBudget adset_id BudgetField.daily
            (Nat.floor (((env.budgetOf adset_id).daily_budget : ℚ)
              * WINNER_BUDGET_INCREASE_RATE)),
          Effect.notifyScaled ad_id (env.budgetOf adset_id).daily_budget
            (Nat.floor (((env.budgetOf adset_id).daily_budget : ℚ)
              * WINNER_BUDGET_INCREASE_RATE))])) ∧
    ((env.budgetOf adset_id).daily_budget = 0 →
      (env.budgetOf adset_id).lifetime_budget ≠ 0 →
      scale_up_winner env ad_id =
        (true,
         [Effect.setBudget adset_id BudgetField.lifetime
            (Nat.floor (((env.budgetOf adset_id).lifetime_budget : ℚ)
              * WINNER_BUDGET_INCREASE_RATE)),
          Effect.notifyScaled ad_id (env.budgetOf adset_id).lifetime_budget
            (Nat.floor (((env.budgetOf adset_id).lifetime_budget : ℚ)
              * WINNER_BUDGET_INCREASE_RATE))])) ∧
    ((env.budgetOf adset_id).daily_budget = 0 →
      (env.budgetOf adset_id).lifetime_budget = 0 →
      scale_up_winner env ad_id = (false, []) ∧
      ((check_ad_performance env ad_id).1 = .scale →
        outcome_of env ad_id = .errored) ∧
      (∀ ads, env.listResult = .ok ads → ad_id ∈ ads →
        (check_ad_performance env ad_id).1 = .scale →
        1 ≤ (monitor_all_ads env).1.errors)) ∧
    ((env.budgetOf adset_id).daily_budget = 10000 →
      scale_up_winner env ad_id =
        (true, [Effect.setBudget adset_id BudgetField.daily 15000,
                Effect.notifyScaled ad_id 10000 15000])) := by
  refine ⟨?_, ?_, ?_, ?_⟩
  · intro hd
    rw [scale_daily env ad_id adset_id hadset hread hupd hd, floor_budget_rate]
  · intro hd hl
    rw [scale_lifetime env ad_id adset_id hadset hread hupd hd hl, floor_budget_rate]
  · intro hd hl
    have hfail := scale_no_budget env ad_id adset_id hadset hd hl
    refine ⟨hfail, ?_, ?_⟩
    · intro hc
      exact outcome_scale_fail env ad_id hc (by rw [hfail])
    · intro ads hlist hmem hc
      have herr : outcome_of env ad_id = .errored :=
        outcome_scale_fail env ad_id hc (by rw [hfail])
      have hads : (get_active_ads env).1 = ads := by simp [get_active_ads, hlist]
      have hs := monitor_stats_eq env
      rw [hads] at hs
      rw [hs]
      have : 0 < ads.countP fun a => outcome_of env a == .errored := by
        rw [List.countP_pos_iff]
        exact ⟨ad_id, hmem, by simp [herr]⟩
      exact this
  · intro hd
    have h10 : (env.budgetOf adset_id).daily_budget ≠ 0 := by rw [hd]; omega
    rw [scale_daily env ad_id adset_id hadset hread hupd h10, hd]

/-- Witness for C6: a daily budget of 10000 produces exactly one write of
15000 to the daily field. -/
theorem C6_witness :
    scale_up_winner env_winner_daily "w" =
      (true, [Effect.setBudget "s" BudgetField.daily 15000,
              Effect.notifyScaled "w" 10000 15000]) :=
  (C6_scale_budget_behavior env_winner_daily "w" "s" rfl rfl rfl).2.2.2 rfl

/-- C7: each processed ad contributes to exactly one of the kept / paused /
scaled / errors buckets — the counters are exactly the per-bucket counts of
the per-ad outcomes — and the four counters sum to `total`, which is the
number of listed ads. -/
theorem C7_counter_partition (env : Env) :
    (monitor_all_ads env).1.total = (get_active_ads env).1.length ∧
    (monitor_all_ads env).1.kept
      = ((get_active_ads env).1.countP fun a => outcome_of env a == .kept) ∧
    (monitor_all_ads env).1.paused
      = ((get_active_ads env).1.countP fun a => outcome_of env a == .paused) ∧
    (monitor_all_ads env).1.scaled
      = ((get_active_ads env).1.countP fun a => outcome_of env a == .scaled) ∧
    (monitor_all_ads env).1.errors
      = ((get_active_ads env).1.countP fun a => outcome_of env a == .errored) ∧
    (monitor_all_ads env).1.kept + (monitor_all_ads env).1.paused
      + (monitor_all_ads env).1.scaled + (monitor_all_ads env).1.errors
      = (monitor_all_ads env).1.total := by
  rw [monitor_stats_eq]
  refine ⟨rfl, rfl, rfl, rfl, rfl, ?_⟩
  exact countP_outcome_partition env (get_active_ads env).1

/-- C8: for every fetched snapshot, the derived roas is revenue/spend when
spend is positive and 0 otherwise — the division is guarded, so the all-zero
and zero-spend cases produce 0 rather than failing. -/
theorem C8_roas_guarded_division (f : FetchResult) :
    (get_ad_insights f).roas =
      if 0 < (get_ad_insights f).spend then
        (get_ad_insights f).revenue / (get_ad_insights f).spend
      else 0 := by
  cases f with
  | ok r => rfl
  | noData => norm_num [get_ad_insights, empty_insights]
  | readError => norm_num [get_ad_insights, empty_insights]

/-- C9: when the daily budget field is non-zero, `scale_up_winner` reads and
writes the daily field (even when the lifetime field is also non-zero), and
the written value is the integer truncation of 1.5× the current budget,
`3 * d / 2` in integer division — so an odd budget loses the fractional
half. -/
theorem C9_daily_precedence_truncation (env : Env) (ad_id adset_id : String)
    (d : ℕ)
    (hadset : env.adsetOf ad_id = some adset_id)
    (hread : env.budgetReadOk adset_id = true)
    (hupd : env.updateOk adset_id = true)
    (hd : (env.budgetOf adset_id).daily_budget = d) (hd0 : d ≠ 0) :
    scale_up_winner env ad_id =
      (true, [Effect.setBudget adset_id BudgetField.daily (3 * d / 2),
              Effect.notifyScaled ad_id d (3 * d / 2)]) ∧
    (d % 2 = 1 → 2 * (3 * d / 2) + 1 = 3 * d) := by
  constructor
  · rw [scale_daily env ad_id adset_id hadset hread hupd (by rw [hd]; exact hd0), hd]
  · intro hodd
    omega

/-- Witness for C9: odd daily budget 10001 with lifetime budget also set —
the daily field is written with 15001 (15001.5 truncated). -/
theorem C9_witness :
    scale_up_winner env_odd_daily "w" =
      (true, [Effect.setBudget "s" BudgetField.daily 15001,
              Effect.notifyScaled "w" 10001 15001]) ∧
    2 * 15001 + 1 = 3 * 10001 := by
  have h := C9_daily_precedence_truncation env_odd_daily "w" "s" 10001
    rfl rfl rfl rfl (by omega)
  exact ⟨h.1, h.2 rfl⟩

/-- Counterexample to C10 as stated: with both fetches returning the same raw
row (ctr 0.496 at 1000 impressions), the reported decision is the Tier-2
kill, but the decision recomputed from the reported snapshot's fields is
`keep`, because the reported ctr is rounded up to 0.50 for display. -/
theorem C10_counterexample :
    ((get_performance_summary (.ok raw_boundary_ctr) (.ok raw_boundary_ctr) "ad1").1.action,
      (get_performance_summary (.ok raw_boundary_ctr) (.ok raw_boundary_ctr) "ad1").1.reason)
      = (AdAction.kill, some Reason.lowCtr) ∧
    check_ad_performance_on (insights_of_summary
        (get_performance_summary (.ok raw_boundary_ctr) (.ok raw_boundary_ctr) "ad1").1)
      = (AdAction.keep, none) := by
  rw [summary_boundary_ctr]
  refine ⟨rfl, ?_⟩
  norm_num [insights_of_summary, check_ad_performance_on,
    MIN_IMPRESSIONS_FOR_CHECK, CTR_CHECK_IMPRESSIONS, MIN_CTR_PERCENT,
    CPC_CHECK_SPEND, MAX_CPC, ROAS_CHECK_SPEND, MIN_ROAS, WINNER_MIN_CTR,
    WINNER_MIN_ROAS]

/-- C10 as amended: the diagnostic's reported (action, reason) pair is a
function of the second fetch; when the two fetches return equal snapshots it
equals the decision computed from the fetched snapshot itself (before the
report's display rounding of ctr/cpc/roas — not necessarily the decision
recomputed from the rounded reported fields); and the operation performs no
mutation in any case. -/
theorem C10_amended_decision_from_second_fetch (f1 f2 : FetchResult)
    (ad_id : String) :
    ((get_performance_summary f1 f2 ad_id).1.action,
      (get_performance_summary f1 f2 ad_id).1.reason)
      = check_ad_performance_on (get_ad_insights f2) ∧
    (f1 = f2 →
      ((get_performance_summary f1 f2 ad_id).1.action,
        (get_performance_summary f1 f2 ad_id).1.reason)
        = check_ad_performance_on (get_ad_insights f1)) ∧
    (get_performance_summary f1 f2 ad_id).2 = [] := by
  refine ⟨rfl, ?_, rfl⟩
  intro h
  rw [h]
  rfl

/-- Witness for the amended C10 at equal no-data fetches. -/
theorem C10_witness :
    ((get_performance_summary FetchResult.noData FetchResult.noData "ad1").1.action,
      (get_performance_summary FetchResult.noData FetchResult.noData "ad1").1.reason)
      = check_ad_performance_on (get_ad_insights FetchResult.noData) ∧
    (get_performance_summary FetchResult.noData FetchResult.noData "ad1").2 = [] :=
  ⟨(C10_amended_decision_from_second_fetch FetchResult.noData FetchResult.noData "ad1").2.1 rfl,
   (C10_amended_decision_from_second_fetch FetchResult.noData FetchResult.noData "ad1").2.2⟩

end KillSwitchModel
